import Mathlib

/-!
Shallow embedding of the bias-extension test program (`bias_test.py`).

Modelling conventions:
* Python floats are idealised as real numbers (`ℝ`); float arithmetic is
  modelled by exact real arithmetic.
* `np.arccos` returns NaN (no exception) when its argument is outside
  `[-1, 1]`; a possibly-NaN float is modelled as `Option ℝ`, with `none`
  standing for a non-finite value (NaN or Inf).  The faithful NaN-aware
  angle method is `BiasTest._calculate_inter_fibre_angle`; the real-valued
  `interFibreAngleR` used to populate the record fields coincides with it
  (entrywise, wrapped in `some`) whenever every arccos argument is in
  domain, which is the regime all value-level theorems assume.
* numpy float division by zero yields `inf`/`nan` without raising; it is
  modelled by `npDiv`, returning `none` for a zero divisor.
* Python exceptions are modelled by `Except PyError`.
-/

/-- Python-level error outcomes that the program can raise. -/
inductive PyError where
  | valueError : PyError
  | zeroDivisionError : PyError
  | indexError : ℕ → PyError
  deriving DecidableEq, Repr

/-- The state of a `BiasTest` object: every attribute that `__init__` stores
on `self`.  `shear_force` entries are `Option ℝ` because the numpy division
in `calculate_shear_force` can produce non-finite values. -/
structure BiasTest where
  displacement : List ℝ
  force : List ℝ
  width : ℝ
  length : ℝ
  thickness : ℝ
  name : String
  number_mesures : ℕ
  ratio : ℝ
  semi_sheared_area : ℝ
  sheared_area : ℝ
  diagonal_pf : ℝ
  length_side_pf : ℝ
  inter_fiber_angle : List ℝ
  shear_angle : List ℝ
  shear_torque : List ℝ
  shear_torque_computed : Bool
  shear_force : List (Option ℝ)
  shear_force_computed : Bool

/-- Real-valued reading of line 89,
`2 * np.arccos((displacement + diagonal_pf) / (2.0 * length_side_pf))`,
used by `__init__` to populate the `inter_fiber_angle` field.  It uses
Mathlib's total `Real.arccos`, which agrees with `np.arccos` whenever the
argument lies in `[-1, 1]`; the NaN behaviour outside that range is captured
by `BiasTest._calculate_inter_fibre_angle` below. -/
noncomputable def interFibreAngleR (displacement : List ℝ)
    (diagonal_pf length_side_pf : ℝ) : List ℝ :=
  displacement.map (fun d =>
    2 * Real.arccos ((d + diagonal_pf) / (2 * length_side_pf)))

/-- The record that `BiasTest.__init__` (lines 60-86) stores on `self` once
validation has passed: the experimental data, the derived geometric
constants, the two angle series, and zero-initialised torque/force series
with their computed flags cleared. -/
noncomputable def BiasTest.mk0 (displacement force : List ℝ)
    (width length thickness : ℝ) (material_name : String) : BiasTest :=
  let number_mesures := displacement.length
  let semi_sheared_area := width * width
  let sheared_area := width * length - 1.5 * semi_sheared_area
  let diagonal_pf := length - width
  let length_side_pf := diagonal_pf / Real.sqrt 2
  let inter_fiber_angle := interFibreAngleR displacement diagonal_pf length_side_pf
  { displacement := displacement
    force := force
    width := width
    length := length
    thickness := thickness
    name := material_name
    number_mesures := number_mesures
    ratio := length / width
    semi_sheared_area := semi_sheared_area
    sheared_area := sheared_area
    diagonal_pf := diagonal_pf
    length_side_pf := length_side_pf
    inter_fiber_angle := inter_fiber_angle
    shear_angle := inter_fiber_angle.map (fun t => Real.pi / 2 - t)
    shear_torque := List.replicate number_mesures 0
    shear_torque_computed := false
    shear_force := List.replicate number_mesures (some 0)
    shear_force_computed := false }

/-- `BiasTest.__init__` (lines 40-86): validate the array sizes, then the
length/width ratio, then build the object (`BiasTest.mk0`).  A zero width
makes the Python expression `length / width` raise `ZeroDivisionError`
before the ratio comparison can run. -/
noncomputable def BiasTest.init (displacement force : List ℝ)
    (width length thickness : ℝ) (material_name : String) :
    Except PyError BiasTest :=
  if displacement.length ≠ force.length then
    Except.error PyError.valueError
  else if width = 0 then
    Except.error PyError.zeroDivisionError
  else if length / width < 2 then
    Except.error PyError.valueError
  else
    Except.ok (BiasTest.mk0 displacement force width length thickness material_name)

/-- `_calculate_inter_fibre_angle` (lines 88-89), NaN-aware:
`np.arccos` yields NaN (here `none`) for arguments outside `[-1, 1]` and
raises no exception. -/
noncomputable def BiasTest._calculate_inter_fibre_angle (b : BiasTest) :
    List (Option ℝ) :=
  b.displacement.map (fun d =>
    let x := (d + b.diagonal_pf) / (2 * b.length_side_pf)
    if -1 ≤ x ∧ x ≤ 1 then some (2 * Real.arccos x) else none)

/-- `_calculate_shear_angle` (lines 91-93): `np.pi / 2 - self.inter_fiber_angle`. -/
noncomputable def BiasTest._calculate_shear_angle (b : BiasTest) : List ℝ :=
  b.inter_fiber_angle.map (fun t => Real.pi / 2 - t)

/-- `np.interp x xp fp`: piecewise-linear interpolation with flat
extrapolation outside the range of `xp`, under numpy's documented
precondition that `xp` is increasing.  Mismatched or empty inputs (which
numpy rejects and which never occur in this program) default to `0`. -/
noncomputable def npInterp (x : ℝ) : List ℝ → List ℝ → ℝ
  | x0 :: x1 :: xp, f0 :: f1 :: fp =>
      if x < x1 then
        if x < x0 then f0
        else f0 + (x - x0) * (f1 - f0) / (x1 - x0)
      else npInterp x (x1 :: xp) (f1 :: fp)
  | [_], f0 :: _ => f0
  | _, _ => 0

/-- numpy float division: a zero divisor produces `inf`/`nan` (modelled
`none`) without raising. -/
noncomputable def npDiv (x y : ℝ) : Option ℝ :=
  if y = 0 then none else some (x / y)

/-- One iteration of the `for i in range(2, N)` loop of
`calculate_shear_torque` (lines 100-104): interpolate the torque at half
the current shear angle over the full `shear_angle` array paired with the
current accumulator `c`, then overwrite `c[i]`. -/
noncomputable def modeA_step (a L : ℝ) (force ifa sa : List ℝ)
    (c : List ℝ) (i : ℕ) : List ℝ :=
  let semi_angle := sa.getD i 0 / 2
  let semi_torque := npInterp semi_angle sa c
  c.set i (1 / a * (L * force.getD i 0 * Real.sin (ifa.getD i 0 / 2)
    - 0.5 * a * semi_torque))

/-- The loop `for i in range(2, N)` of `calculate_shear_torque`, written
with explicit fuel: `modeA_loop … c i n` runs `modeA_step` at indices
`i, i+1, …, i+n-1`. -/
noncomputable def modeA_loop (a L : ℝ) (force ifa sa : List ℝ) :
    List ℝ → ℕ → ℕ → List ℝ
  | c, _, 0 => c
  | c, i, n + 1 => modeA_loop a L force ifa sa (modeA_step a L force ifa sa c i) (i + 1) n

/-- `calculate_shear_torque` (lines 95-107, Mode A): `c = np.zeros(N)`;
`c[1]` is set to the closed-form bootstrap (an `IndexError` at index 1 when
the series has fewer than two samples); the loop fills `c[2..N-1]`; finally
`self.shear_torque` is overwritten with `c` and the computed flag set. -/
noncomputable def BiasTest.calculate_shear_torque (b : BiasTest) :
    Except PyError BiasTest :=
  match b.force.get? 1, b.inter_fiber_angle.get? 1 with
  | some F1, some t1 =>
      let c0 := (List.replicate b.number_mesures (0 : ℝ)).set 1
        (4 * b.length_side_pf * F1 * Real.sin (t1 / 2)
          / (4 * b.sheared_area - b.semi_sheared_area))
      Except.ok
        { b with
          shear_torque := modeA_loop b.semi_sheared_area b.length_side_pf
            b.force b.inter_fiber_angle b.shear_angle c0 2 (b.number_mesures - 2)
          shear_torque_computed := true }
  | _, _ => Except.error (PyError.indexError 1)

/-- The vectorised Mode B formula of `calculate_shear_torque_2` (line 125),
applied elementwise over the force and shear-angle series. -/
noncomputable def modeB_series (length width : ℝ)
    (force shear_angle : List ℝ) : List ℝ :=
  List.zipWith
    (fun f s => (length / width - 1) * f * (Real.cos (s / 2) - Real.sin (s / 2))
      / (2 * length - 3 * width))
    force shear_angle

/-- `calculate_shear_torque_2` (lines 109-126, Mode B): overwrite
`self.shear_torque` with the closed-form series and set the flag; no
recursion and no failure path. -/
noncomputable def BiasTest.calculate_shear_torque_2 (b : BiasTest) : BiasTest :=
  { b with
    shear_torque := modeB_series b.length b.width b.force b.shear_angle
    shear_torque_computed := true }

/-- `calculate_shear_force` (lines 128-133): if the torque flag is unset,
first run `calculate_shear_torque` (Mode A); then divide the torque series
elementwise by `np.cos(shear_angle)` (numpy division, so a zero cosine
yields a non-finite entry, not an exception) and set the force flag. -/
noncomputable def BiasTest.calculate_shear_force (b : BiasTest) :
    Except PyError BiasTest :=
  match (if b.shear_torque_computed then Except.ok b else b.calculate_shear_torque) with
  | Except.error e => Except.error e
  | Except.ok b1 =>
      Except.ok
        { b1 with
          shear_force := List.zipWith (fun t s => npDiv t (Real.cos s))
            b1.shear_torque b1.shear_angle
          shear_force_computed := true }

/-! ### Concrete states and derived accumulators used by the theorems -/

/-- The accumulator state after the bootstrap assignment `c[1] = …` of
`calculate_shear_torque` (lines 97-98): a zero array of length
`number_mesures` with entry 1 overwritten by the closed-form bootstrap. -/
noncomputable def modeA_c0 (b : BiasTest) : List ℝ :=
  (List.replicate b.number_mesures (0 : ℝ)).set 1
    (4 * b.length_side_pf * b.force.getD 1 0
      * Real.sin (b.inter_fiber_angle.getD 1 0 / 2)
      / (4 * b.sheared_area - b.semi_sheared_area))

/-- A convenient fully concrete `BiasTest` state used to instantiate
hypothesis-bearing theorems. -/
noncomputable def baseB : BiasTest :=
  { displacement := []
    force := []
    width := 1
    length := 3
    thickness := 1
    name := "m"
    number_mesures := 0
    ratio := 3
    semi_sheared_area := 1
    sheared_area := 1
    diagonal_pf := 2
    length_side_pf := 1
    inter_fiber_angle := []
    shear_angle := []
    shear_torque := []
    shear_torque_computed := false
    shear_force := []
    shear_force_computed := false }

/-- Concrete state for the C3 witness: one displacement sample whose arccos
argument is (9 + 2) / (2 * 1) = 11/2, far outside [-1, 1]. -/
noncomputable def witB3 : BiasTest :=
  { baseB with displacement := [9] }

/-- Concrete state for C4: torque already computed, one sample whose shear
angle is exactly pi/2, so its cosine is exactly 0. -/
noncomputable def cexB4 : BiasTest :=
  { baseB with
    shear_angle := [Real.pi / 2]
    shear_torque := [1]
    shear_torque_computed := true }

/-- Concrete state for the C7 witness: torque already computed, one sample
with shear angle 0 (cosine 1). -/
noncomputable def witB7 : BiasTest :=
  { baseB with
    shear_angle := [0]
    shear_torque := [5]
    shear_torque_computed := true }

/-- Concrete state for the C6 witness: a single-sample specimen. -/
noncomputable def cexB6 : BiasTest :=
  { baseB with displacement := [0], force := [0], number_mesures := 1 }

/-- Concrete state for the C2 witness: two samples, all series length 2. -/
noncomputable def witB2 : BiasTest :=
  { baseB with
    displacement := [0, 0], force := [0, 1], number_mesures := 2,
    inter_fiber_angle := [0, 0], shear_angle := [0, 0],
    shear_torque := [0, 0], shear_force := [some 0, some 0] }

/-- Concrete state for the C10 witness: two samples, all series length 2. -/
noncomputable def witB10 : BiasTest :=
  { baseB with
    displacement := [0, 0], force := [0, 1], number_mesures := 2,
    inter_fiber_angle := [0, 0], shear_angle := [0, 0],
    shear_torque := [0, 0], shear_force := [some 0, some 0] }

/-- Concrete state for the C8 witness. -/
noncomputable def witB8 : BiasTest :=
  { baseB with force := [1], shear_angle := [0], number_mesures := 1 }

/-- Concrete state exhibiting the C1 discrepancy: three samples,
`a = A = 2`, `L = 1`, `F = [0, 3, 0]`, `theta_f = [0, pi, pi]`,
`theta_s = [0, 1, 6]`.  At `i = 2` the query angle `theta_s[2]/2 = 3` lies
between `theta_s[1] = 1` and `theta_s[2] = 6`, so the code interpolates
into the still-zero entry `c[2]`, while the claimed prefix table would
flat-extrapolate. -/
noncomputable def cexB1 : BiasTest :=
  { baseB with
    displacement := [0, 0, 0], force := [0, 3, 0], number_mesures := 3,
    semi_sheared_area := 2, sheared_area := 2, length_side_pf := 1,
    inter_fiber_angle := [0, Real.pi, Real.pi], shear_angle := [0, 1, 6],
    shear_torque := [0, 0, 0],
    shear_force := [some 0, some 0, some 0] }

/-! ### General helper lemmas -/

theorem get?_zipWith_of_lt {α β γ : Type} (f : α → β → γ) (d1 : α) (d2 : β) :
    ∀ (l1 : List α) (l2 : List β) (i : ℕ), i < l1.length → i < l2.length →
      (List.zipWith f l1 l2).get? i = some (f (l1.getD i d1) (l2.getD i d2))
  | [], _, i, h1, _ => absurd h1 (by simp)
  | _ :: _, [], i, _, h2 => absurd h2 (by simp)
  | a :: l1, b :: l2, 0, _, _ => rfl
  | a :: l1, b :: l2, i + 1, h1, h2 => by
      simpa using get?_zipWith_of_lt f d1 d2 l1 l2 i
        (Nat.lt_of_succ_lt_succ h1) (Nat.lt_of_succ_lt_succ h2)

/-! ### Claim C5 — construction validation -/

/-- C5 counterexample: the claim says construction must fail with
ValidationError when width or length is non-positive, but the code accepts
width = -1, length = -3 (their ratio is 3 ≥ 2 and the sizes match), so
construction succeeds. -/
theorem C5_construction_validation_counterexample :
    BiasTest.init [0] [0] (-1) (-3) 1 ("m")
      = Except.ok (BiasTest.mk0 [0] [0] (-1) (-3) 1 ("m")) := by
  unfold BiasTest.init
  norm_num

/-- C5 (amended): construction fails exactly when the displacement and force
arrays have mismatched lengths, when width = 0 (a ZeroDivisionError from the
ratio expression), or when length/width < 2.0; there is no positivity or
finiteness check on width, length or thickness.  Every successfully
constructed specimen satisfies length/width ≥ 2.0, and construction with
ratio 1.9 (width 10, length 19) fails with ValidationError. -/
theorem C5_construction_validation_amended :
    (∀ d f w l t n, (∃ b, BiasTest.init d f w l t n = Except.ok b)
        ↔ (d.length = f.length ∧ w ≠ 0 ∧ ¬ l / w < 2)) ∧
    (∀ d f w l t n b, BiasTest.init d f w l t n = Except.ok b
        → 2 ≤ b.length / b.width) ∧
    (∀ t n, BiasTest.init [0] [0] 10 19 t n = Except.error PyError.valueError) := by
  refine ⟨?_, ?_, ?_⟩
  · intro d f w l t n
    constructor
    · rintro ⟨b, hb⟩
      unfold BiasTest.init at hb
      by_cases h1 : d.length = f.length
      · by_cases h2 : w = 0
        · simp [h1, h2] at hb
        · by_cases h3 : l / w < 2
          · simp [h1, h2, h3] at hb
          · exact ⟨h1, h2, h3⟩
      · simp [h1] at hb
    · rintro ⟨h1, h2, h3⟩
      refine ⟨BiasTest.mk0 d f w l t n, ?_⟩
      unfold BiasTest.init
      simp [h1, h2, h3]
  · intro d f w l t n b hb
    unfold BiasTest.init at hb
    by_cases h1 : d.length = f.length
    · by_cases h2 : w = 0
      · simp [h1, h2] at hb
      · by_cases h3 : l / w < 2
        · simp [h1, h2, h3] at hb
        · simp [h1, h2, h3] at hb
          have hl : b.length = l := by rw [← hb]; rfl
          have hw : b.width = w := by rw [← hb]; rfl
          rw [hl, hw]
          linarith [not_lt.mp h3]
    · simp [h1] at hb
  · intro t n
    unfold BiasTest.init
    norm_num

/-- C5 witness: a matched, ratio-2 construction succeeds, via the amended
characterisation. -/
theorem C5_construction_validation_witness :
    ∃ b, BiasTest.init [0] [0] 1 2 1 ("m") = Except.ok b :=
  (C5_construction_validation_amended.1 [0] [0] 1 2 1 ("m")).mpr
    ⟨rfl, by norm_num, by norm_num⟩

/-! ### Claim C3 — angle-mapping domain behaviour -/

/-- C3 (amended): when the arccos argument at index `i` lies outside
`[-1, 1]`, the angle computation raises no error; it silently produces a
NaN entry (`none`) at that index, and still returns a full-length series. -/
theorem C3_angle_domain_amended (b : BiasTest) (i : ℕ)
    (hi : i < b.displacement.length)
    (hx : ¬ (-1 ≤ (b.displacement.getD i 0 + b.diagonal_pf) / (2 * b.length_side_pf) ∧
             (b.displacement.getD i 0 + b.diagonal_pf) / (2 * b.length_side_pf) ≤ 1)) :
    b._calculate_inter_fibre_angle.get? i = some none ∧
    b._calculate_inter_fibre_angle.length = b.displacement.length := by
  constructor
  · have hv : b.displacement.get? i = some (b.displacement.getD i 0) := by
      rw [List.get?_eq_get hi, List.getD_eq_get?, List.get?_eq_get hi]
      rfl
    unfold BiasTest._calculate_inter_fibre_angle
    rw [List.get?_map, hv]
    simp only [Option.map_some']
    rw [if_neg hx]
  · unfold BiasTest._calculate_inter_fibre_angle
    exact List.length_map _ _

/-- C3 witness: the amended theorem applied to `witB3` at index 0. -/
theorem C3_angle_domain_witness :
    witB3._calculate_inter_fibre_angle.get? 0 = some none ∧
    witB3._calculate_inter_fibre_angle.length = witB3.displacement.length :=
  C3_angle_domain_amended witB3 0 (by simp [witB3, baseB])
    (by simp only [witB3, baseB]; norm_num)

/-- C3 counterexample: the claim says an out-of-domain arccos argument must
signal a NumericDomainError naming the index; on the specimen constructed
with width 1, length 3 and displacement [3] (argument 5·√2/4 > 1), the
angle computation instead returns successfully with a NaN entry. -/
theorem C3_angle_domain_counterexample :
    (BiasTest.init [3] [0] 1 3 1 ("m")).toOption.map
      (fun b => b._calculate_inter_fibre_angle) = some [none] := by
  have hinit : BiasTest.init [3] [0] 1 3 1 ("m")
      = Except.ok (BiasTest.mk0 [3] [0] 1 3 1 ("m")) := by
    unfold BiasTest.init
    norm_num
  rw [hinit]
  have hs0 : Real.sqrt 2 * Real.sqrt 2 = 2 := Real.mul_self_sqrt (by norm_num)
  have hs1 : (0:ℝ) ≤ Real.sqrt 2 := Real.sqrt_nonneg 2
  have hs2 : (1:ℝ) < Real.sqrt 2 := by nlinarith
  have hne : Real.sqrt 2 ≠ 0 := by positivity
  have hx : ¬ (-1 ≤ ((3:ℝ) + (3 - 1)) / (2 * ((3 - 1) / Real.sqrt 2)) ∧
      ((3:ℝ) + (3 - 1)) / (2 * ((3 - 1) / Real.sqrt 2)) ≤ 1) := by
    rintro ⟨-, h2⟩
    have hsd : ((3:ℝ) - 1) / Real.sqrt 2 = Real.sqrt 2 := by
      rw [div_eq_iff hne]
      nlinarith
    rw [hsd] at h2
    have hd : (0:ℝ) < 2 * Real.sqrt 2 := by positivity
    rw [div_le_one hd] at h2
    nlinarith
  have hp1 : (BiasTest.mk0 [3] [0] 1 3 1 ("m")).displacement = [3] := rfl
  have hp2 : (BiasTest.mk0 [3] [0] 1 3 1 ("m")).diagonal_pf = 3 - 1 := rfl
  have hp3 : (BiasTest.mk0 [3] [0] 1 3 1 ("m")).length_side_pf
      = (3 - 1) / Real.sqrt 2 := rfl
  simp only [Except.toOption, Option.map_some']
  unfold BiasTest._calculate_inter_fibre_angle
  rw [hp1, hp2, hp3]
  simp only [List.map]
  rw [if_neg hx]

/-! ### Claim C9 — angle kinematics -/

/-- A successful construction returns exactly the record built by
`BiasTest.mk0`. -/
theorem init_ok_elim {d f : List ℝ} {w l t : ℝ} {n : String} {b : BiasTest}
    (hb : BiasTest.init d f w l t n = Except.ok b) :
    b = BiasTest.mk0 d f w l t n := by
  unfold BiasTest.init at hb
  by_cases h1 : d.length = f.length
  · by_cases h2 : w = 0
    · simp [h1, h2] at hb
    · by_cases h3 : l / w < 2
      · simp [h1, h2, h3] at hb
      · simp [h1, h2, h3] at hb
        exact hb.symm
  · simp [h1] at hb

/-- Entry `i` of a list as a `some`, phrased with `getD`. -/
theorem get?_eq_some_getD {α : Type} (l : List α) (d : α) (i : ℕ)
    (hi : i < l.length) : l.get? i = some (l.getD i d) := by
  rw [List.get?_eq_get hi, List.getD_eq_get?, List.get?_eq_get hi]
  rfl

/-- C9 (confirmed): on every successfully constructed specimen whose arccos
arguments are all in `[-1, 1]`, the angle mapping gives
`inter_fiber_angle[i] = 2 * arccos((displacement[i] + diagonal_pf) /
(2 * length_side_pf))` and `shear_angle[i] = pi/2 - inter_fiber_angle[i]`,
so the two angles at each index sum to exactly `pi/2`. -/
theorem C9_angle_kinematics (d f : List ℝ) (w l t : ℝ) (n : String)
    (b : BiasTest) (hb : BiasTest.init d f w l t n = Except.ok b)
    (hdom : ∀ j, j < d.length →
      -1 ≤ (d.getD j 0 + (l - w)) / (2 * ((l - w) / Real.sqrt 2)) ∧
      (d.getD j 0 + (l - w)) / (2 * ((l - w) / Real.sqrt 2)) ≤ 1)
    (i : ℕ) (hi : i < d.length) :
    b._calculate_inter_fibre_angle.get? i
      = some (some (2 * Real.arccos
          ((d.getD i 0 + (l - w)) / (2 * ((l - w) / Real.sqrt 2))))) ∧
    b.inter_fiber_angle.get? i
      = some (2 * Real.arccos
          ((d.getD i 0 + (l - w)) / (2 * ((l - w) / Real.sqrt 2)))) ∧
    b.shear_angle.get? i
      = some (Real.pi / 2 - 2 * Real.arccos
          ((d.getD i 0 + (l - w)) / (2 * ((l - w) / Real.sqrt 2)))) ∧
    b.shear_angle.getD i 0 + b.inter_fiber_angle.getD i 0 = Real.pi / 2 := by
  have hbb := init_ok_elim hb
  subst hbb
  have hv : d.get? i = some (d.getD i 0) := get?_eq_some_getD d 0 i hi
  have hp_d : (BiasTest.mk0 d f w l t n).displacement = d := rfl
  have hp_diag : (BiasTest.mk0 d f w l t n).diagonal_pf = l - w := rfl
  have hp_lpf : (BiasTest.mk0 d f w l t n).length_side_pf
      = (l - w) / Real.sqrt 2 := rfl
  have hp_ifa : (BiasTest.mk0 d f w l t n).inter_fiber_angle
      = interFibreAngleR d (l - w) ((l - w) / Real.sqrt 2) := rfl
  have hp_sa : (BiasTest.mk0 d f w l t n).shear_angle
      = (interFibreAngleR d (l - w) ((l - w) / Real.sqrt 2)).map
          (fun v => Real.pi / 2 - v) := rfl
  have h2 : (BiasTest.mk0 d f w l t n).inter_fiber_angle.get? i
      = some (2 * Real.arccos
          ((d.getD i 0 + (l - w)) / (2 * ((l - w) / Real.sqrt 2)))) := by
    rw [hp_ifa]
    unfold interFibreAngleR
    rw [List.get?_map, hv]
    rfl
  have h3 : (BiasTest.mk0 d f w l t n).shear_angle.get? i
      = some (Real.pi / 2 - 2 * Real.arccos
          ((d.getD i 0 + (l - w)) / (2 * ((l - w) / Real.sqrt 2)))) := by
    rw [hp_sa, List.get?_map, ← hp_ifa, h2]
    rfl
  refine ⟨?_, h2, h3, ?_⟩
  · unfold BiasTest._calculate_inter_fibre_angle
    rw [hp_d, hp_diag, hp_lpf, List.get?_map, hv]
    simp only [Option.map_some']
    rw [if_pos (hdom i hi)]
  · rw [List.getD_eq_get?, List.getD_eq_get?, h2, h3]
    simp only [Option.getD_some]
    ring

/-- C9 witness: the kinematics theorem applied to the specimen
width 1, length 3, displacement [0] (arccos argument 1/sqrt 2). -/
theorem C9_angle_kinematics_witness :
    ∃ b, BiasTest.init [0] [0] 1 3 1 ("m") = Except.ok b ∧
      b.shear_angle.getD 0 0 + b.inter_fiber_angle.getD 0 0 = Real.pi / 2 := by
  have hinit : BiasTest.init [0] [0] 1 3 1 ("m")
      = Except.ok (BiasTest.mk0 [0] [0] 1 3 1 ("m")) := by
    unfold BiasTest.init
    norm_num
  have hs0 : Real.sqrt 2 * Real.sqrt 2 = 2 := Real.mul_self_sqrt (by norm_num)
  have hs1 : (0:ℝ) ≤ Real.sqrt 2 := Real.sqrt_nonneg 2
  have hs2 : (1:ℝ) < Real.sqrt 2 := by nlinarith
  have hdom : ∀ j, j < ([0] : List ℝ).length →
      -1 ≤ (([0] : List ℝ).getD j 0 + ((3:ℝ) - 1)) / (2 * (((3:ℝ) - 1) / Real.sqrt 2)) ∧
      (([0] : List ℝ).getD j 0 + ((3:ℝ) - 1)) / (2 * (((3:ℝ) - 1) / Real.sqrt 2)) ≤ 1 := by
    intro j hj
    have hj0 : j = 0 := by simpa using Nat.lt_one_iff.mp (by simpa using hj)
    subst hj0
    have hg : (([0] : List ℝ).getD 0 0) = 0 := rfl
    rw [hg]
    have hsd : ((3:ℝ) - 1) / Real.sqrt 2 = Real.sqrt 2 := by
      rw [div_eq_iff (by positivity)]
      nlinarith
    rw [hsd]
    constructor
    · have h0 : (0:ℝ) ≤ (0 + ((3:ℝ) - 1)) / (2 * Real.sqrt 2) :=
        div_nonneg (by norm_num) (by positivity)
      linarith
    · rw [div_le_one (by positivity)]
      nlinarith
  exact ⟨BiasTest.mk0 [0] [0] 1 3 1 ("m"), hinit,
    (C9_angle_kinematics [0] [0] 1 3 1 ("m") _ hinit hdom 0 (by norm_num)).2.2.2⟩

/-! ### Claim C4 — shear-force singularity behaviour -/

/-- C4 (amended): when `cos(shear_angle[i]) = 0`, deriving the shear force
does NOT fail; it returns successfully and the entry at index `i` is a
non-finite value (numpy `inf`/`nan`, modelled `none`). -/
theorem C4_shear_force_singularity_amended (b : BiasTest) (i : ℕ)
    (hflag : b.shear_torque_computed = true)
    (h1 : i < b.shear_torque.length) (h2 : i < b.shear_angle.length)
    (hcos : Real.cos (b.shear_angle.getD i 0) = 0) :
    ∃ b1, b.calculate_shear_force = Except.ok b1 ∧
      b1.shear_force.get? i = some none := by
  refine ⟨{ b with
      shear_force := List.zipWith (fun v s => npDiv v (Real.cos s))
        b.shear_torque b.shear_angle
      shear_force_computed := true }, ?_, ?_⟩
  · have hif : (if b.shear_torque_computed then Except.ok b
        else b.calculate_shear_torque) = Except.ok b := by
      rw [hflag]
      rfl
    unfold BiasTest.calculate_shear_force
    rw [hif]
  · show (List.zipWith (fun v s => npDiv v (Real.cos s))
        b.shear_torque b.shear_angle).get? i = some none
    rw [get?_zipWith_of_lt (fun v s => npDiv v (Real.cos s)) 0 0
      b.shear_torque b.shear_angle i h1 h2, hcos]
    simp [npDiv]

/-- C4 witness: the amended theorem instantiated at `cexB4`, index 0. -/
theorem C4_shear_force_singularity_witness :
    ∃ b1, cexB4.calculate_shear_force = Except.ok b1 ∧
      b1.shear_force.get? 0 = some none :=
  C4_shear_force_singularity_amended cexB4 0 rfl
    (by simp [cexB4, baseB]) (by simp [cexB4, baseB])
    (by simp only [cexB4, baseB]; simpa using Real.cos_pi_div_two)

/-- C4 counterexample: the claim says `derive` must fail with
DivisionSingularity at shear_angle = pi/2; instead `calculate_shear_force`
on `cexB4` returns successfully, with the non-finite entry `none` at the
offending index. -/
theorem C4_shear_force_singularity_counterexample :
    (cexB4.calculate_shear_force).toOption.map (fun b => b.shear_force)
      = some [none] := by
  have h : cexB4.calculate_shear_force = Except.ok
      { cexB4 with
        shear_force := List.zipWith (fun v s => npDiv v (Real.cos s))
          cexB4.shear_torque cexB4.shear_angle
        shear_force_computed := true } := rfl
  rw [h]
  simp only [Except.toOption, Option.map_some']
  have h2 : List.zipWith (fun v s => npDiv v (Real.cos s))
      cexB4.shear_torque cexB4.shear_angle
      = [npDiv 1 (Real.cos (Real.pi / 2))] := rfl
  simp only [h2]
  rw [Real.cos_pi_div_two]
  simp [npDiv]

/-! ### Claim C7 — shear-force derivation contract -/

/-- C7 (confirmed): if the torque series is already computed,
`calculate_shear_force` succeeds, leaves the torque untouched, and yields
`shear_force[i] = shear_torque[i] / cos(shear_angle[i])` at every index
where the cosine is nonzero; if the torque is uninitialized, it first
auto-triggers the Mode A computation `calculate_shear_torque` (propagating
its error, and otherwise using its torque series), never Mode B. -/
theorem C7_shear_force_contract (b : BiasTest) :
    (b.shear_torque_computed = true →
      ∃ b1, b.calculate_shear_force = Except.ok b1 ∧
        b1.shear_torque = b.shear_torque ∧
        b1.shear_force_computed = true ∧
        ∀ i, i < b.shear_torque.length → i < b.shear_angle.length →
          Real.cos (b.shear_angle.getD i 0) ≠ 0 →
          b1.shear_force.get? i
            = some (some (b.shear_torque.getD i 0
                / Real.cos (b.shear_angle.getD i 0)))) ∧
    (b.shear_torque_computed = false →
      (∀ e, b.calculate_shear_torque = Except.error e →
          b.calculate_shear_force = Except.error e) ∧
      (∀ bA, b.calculate_shear_torque = Except.ok bA →
          ∃ b1, b.calculate_shear_force = Except.ok b1 ∧
            b1.shear_torque = bA.shear_torque ∧
            b1.shear_force = List.zipWith (fun v s => npDiv v (Real.cos s))
              bA.shear_torque bA.shear_angle)) := by
  constructor
  · intro hflag
    refine ⟨{ b with
        shear_force := List.zipWith (fun v s => npDiv v (Real.cos s))
          b.shear_torque b.shear_angle
        shear_force_computed := true }, ?_, rfl, rfl, ?_⟩
    · have hif : (if b.shear_torque_computed then Except.ok b
          else b.calculate_shear_torque) = Except.ok b := by
        rw [hflag]
        rfl
      unfold BiasTest.calculate_shear_force
      rw [hif]
    · intro i h1 h2 hcos
      show (List.zipWith (fun v s => npDiv v (Real.cos s))
          b.shear_torque b.shear_angle).get? i = _
      rw [get?_zipWith_of_lt (fun v s => npDiv v (Real.cos s)) 0 0
        b.shear_torque b.shear_angle i h1 h2]
      simp only [npDiv]
      rw [if_neg hcos]
  · intro hflag
    constructor
    · intro e he
      have hif : (if b.shear_torque_computed then Except.ok b
          else b.calculate_shear_torque) = b.calculate_shear_torque := by
        rw [hflag]
        rfl
      unfold BiasTest.calculate_shear_force
      rw [hif, he]
    · intro bA hA
      refine ⟨{ bA with
          shear_force := List.zipWith (fun v s => npDiv v (Real.cos s))
            bA.shear_torque bA.shear_angle
          shear_force_computed := true }, ?_, rfl, rfl⟩
      have hif : (if b.shear_torque_computed then Except.ok b
          else b.calculate_shear_torque) = b.calculate_shear_torque := by
        rw [hflag]
        rfl
      unfold BiasTest.calculate_shear_force
      rw [hif, hA]

/-- C7 witness: the contract applied to `witB7` in the already-computed
branch, index 0 (cos 0 = 1, so shear_force[0] = 5 / 1). -/
theorem C7_shear_force_contract_witness :
    ∃ b1, witB7.calculate_shear_force = Except.ok b1 ∧
      b1.shear_torque = witB7.shear_torque ∧
      b1.shear_force_computed = true ∧
      ∀ i, i < witB7.shear_torque.length → i < witB7.shear_angle.length →
        Real.cos (witB7.shear_angle.getD i 0) ≠ 0 →
        b1.shear_force.get? i
          = some (some (witB7.shear_torque.getD i 0
              / Real.cos (witB7.shear_angle.getD i 0))) :=
  (C7_shear_force_contract witB7).1 rfl

/-! ### Mode A loop lemmas -/

theorem modeA_loop_zero (a L : ℝ) (force ifa sa c : List ℝ) (i : ℕ) :
    modeA_loop a L force ifa sa c i 0 = c := rfl

theorem modeA_loop_succ (a L : ℝ) (force ifa sa c : List ℝ) (i n : ℕ) :
    modeA_loop a L force ifa sa c i (n + 1)
      = modeA_loop a L force ifa sa (modeA_step a L force ifa sa c i) (i + 1) n := rfl

theorem modeA_step_length (a L : ℝ) (force ifa sa c : List ℝ) (i : ℕ) :
    (modeA_step a L force ifa sa c i).length = c.length := by
  simp [modeA_step]

theorem modeA_loop_length (a L : ℝ) (force ifa sa : List ℝ) :
    ∀ (n : ℕ) (c : List ℝ) (i : ℕ),
      (modeA_loop a L force ifa sa c i n).length = c.length
  | 0, c, i => rfl
  | n + 1, c, i => by
      rw [modeA_loop_succ, modeA_loop_length a L force ifa sa n _ _,
        modeA_step_length]

theorem modeA_loop_get_lt (a L : ℝ) (force ifa sa : List ℝ) :
    ∀ (n : ℕ) (c : List ℝ) (i m : ℕ), m < i →
      (modeA_loop a L force ifa sa c i n).get? m = c.get? m
  | 0, c, i, m, _ => rfl
  | n + 1, c, i, m, hm => by
      rw [modeA_loop_succ,
        modeA_loop_get_lt a L force ifa sa n _ (i + 1) m (by omega)]
      exact List.get?_set_ne _ _ (by omega)

theorem modeA_loop_add (a L : ℝ) (force ifa sa : List ℝ) :
    ∀ (p : ℕ) (q : ℕ) (c : List ℝ) (i : ℕ),
      modeA_loop a L force ifa sa c i (p + q)
        = modeA_loop a L force ifa sa (modeA_loop a L force ifa sa c i p) (i + p) q
  | 0, q, c, i => by simp [modeA_loop_zero]
  | p + 1, q, c, i => by
      have h1 : p + 1 + q = (p + q) + 1 := by omega
      rw [h1, modeA_loop_succ, modeA_loop_add a L force ifa sa p q _ (i + 1),
        modeA_loop_succ]
      have h2 : i + 1 + p = i + (p + 1) := by omega
      rw [h2]

/-- Shape of a successful Mode A run: when index 1 exists in the force and
angle series, `calculate_shear_torque` returns the state whose torque series
is the loop run from the bootstrap accumulator. -/
theorem calculate_shear_torque_ok (b : BiasTest)
    (hf : 1 < b.force.length) (hi : 1 < b.inter_fiber_angle.length) :
    b.calculate_shear_torque = Except.ok
      { b with
        shear_torque := modeA_loop b.semi_sheared_area b.length_side_pf
          b.force b.inter_fiber_angle b.shear_angle (modeA_c0 b) 2
          (b.number_mesures - 2)
        shear_torque_computed := true } := by
  have hf1 : b.force.get? 1 = some (b.force.getD 1 0) :=
    get?_eq_some_getD _ 0 1 hf
  have hi1 : b.inter_fiber_angle.get? 1 = some (b.inter_fiber_angle.getD 1 0) :=
    get?_eq_some_getD _ 0 1 hi
  unfold BiasTest.calculate_shear_torque
  rw [hf1, hi1]
  rfl

/-! ### Claim C6 — insufficient samples -/

/-- C6 (confirmed): on a specimen with fewer than 2 samples, Mode A fails at
the bootstrap assignment `c[1] = …` — the read `force[1]` is an IndexError
at index 1 (the spec taxonomy's ComputationError for N < 2) — rather than
succeeding. -/
theorem C6_insufficient_samples (b : BiasTest)
    (hN : b.number_mesures < 2) (hf : b.force.length = b.number_mesures) :
    b.calculate_shear_torque = Except.error (PyError.indexError 1) := by
  have h1 : b.force.get? 1 = none := List.get?_eq_none.mpr (by omega)
  unfold BiasTest.calculate_shear_torque
  rw [h1]

/-- C6 witness: the insufficient-sample theorem applied to the one-sample
state `cexB6`. -/
theorem C6_insufficient_samples_witness :
    cexB6.calculate_shear_torque = Except.error (PyError.indexError 1) :=
  C6_insufficient_samples cexB6 (by norm_num [cexB6, baseB])
    (by simp [cexB6, baseB])

/-! ### Claim C2 — Mode A initialization -/

/-- C2 (confirmed): on any state with at least 2 samples (and series of the
matching length), Mode A succeeds with `c[0] = 0` and
`c[1] = 4 * L * F[1] * sin(theta_f[1] / 2) / (4 * sheared_area -
semi_sheared_area)`. -/
theorem C2_mode_a_initialization (b : BiasTest)
    (hN : 2 ≤ b.number_mesures)
    (hf : b.force.length = b.number_mesures)
    (hifa : b.inter_fiber_angle.length = b.number_mesures) :
    ∃ b1, b.calculate_shear_torque = Except.ok b1 ∧
      b1.shear_torque.get? 0 = some 0 ∧
      b1.shear_torque.get? 1 = some
        (4 * b.length_side_pf * b.force.getD 1 0
          * Real.sin (b.inter_fiber_angle.getD 1 0 / 2)
          / (4 * b.sheared_area - b.semi_sheared_area)) := by
  refine ⟨_, calculate_shear_torque_ok b (by omega) (by omega), ?_, ?_⟩
  · show (modeA_loop b.semi_sheared_area b.length_side_pf b.force
        b.inter_fiber_angle b.shear_angle (modeA_c0 b) 2
        (b.number_mesures - 2)).get? 0 = some 0
    rw [modeA_loop_get_lt _ _ _ _ _ _ _ _ 0 (by omega)]
    unfold modeA_c0
    rw [List.get?_set_ne _ _ (by omega), List.get?_eq_getElem?,
      List.getElem?_replicate, if_pos (by omega)]
  · show (modeA_loop b.semi_sheared_area b.length_side_pf b.force
        b.inter_fiber_angle b.shear_angle (modeA_c0 b) 2
        (b.number_mesures - 2)).get? 1 = _
    rw [modeA_loop_get_lt _ _ _ _ _ _ _ _ 1 (by omega)]
    unfold modeA_c0
    rw [List.get?_set_eq_of_lt _ (by simp; omega)]

/-- C2 witness: the initialization theorem applied to `witB2`. -/
theorem C2_mode_a_initialization_witness :
    ∃ b1, witB2.calculate_shear_torque = Except.ok b1 ∧
      b1.shear_torque.get? 0 = some 0 ∧
      b1.shear_torque.get? 1 = some
        (4 * witB2.length_side_pf * witB2.force.getD 1 0
          * Real.sin (witB2.inter_fiber_angle.getD 1 0 / 2)
          / (4 * witB2.sheared_area - witB2.semi_sheared_area)) :=
  C2_mode_a_initialization witB2 (by norm_num [witB2, baseB])
    (by simp [witB2, baseB]) (by simp [witB2, baseB])

/-! ### Claim C10 — frame property of Mode A -/

/-- C10 (confirmed): a successful Mode A run changes only the
`shear_torque` series and its computed flag; every other field of the state
is unchanged, and the resulting torque series has length `number_mesures`. -/
theorem C10_frame_property (b b1 : BiasTest)
    (h : b.calculate_shear_torque = Except.ok b1) :
    b1.displacement = b.displacement ∧ b1.force = b.force ∧
    b1.width = b.width ∧ b1.length = b.length ∧ b1.thickness = b.thickness ∧
    b1.name = b.name ∧ b1.number_mesures = b.number_mesures ∧
    b1.ratio = b.ratio ∧ b1.semi_sheared_area = b.semi_sheared_area ∧
    b1.sheared_area = b.sheared_area ∧ b1.diagonal_pf = b.diagonal_pf ∧
    b1.length_side_pf = b.length_side_pf ∧
    b1.inter_fiber_angle = b.inter_fiber_angle ∧
    b1.shear_angle = b.shear_angle ∧
    b1.shear_force = b.shear_force ∧
    b1.shear_force_computed = b.shear_force_computed ∧
    b1.shear_torque_computed = true ∧
    b1.shear_torque.length = b.number_mesures := by
  unfold BiasTest.calculate_shear_torque at h
  cases hf : b.force.get? 1 with
  | none =>
      rw [hf] at h
      have h2 : Except.error (PyError.indexError 1) = Except.ok b1 := h
      simp at h2
  | some F1 =>
      cases hi : b.inter_fiber_angle.get? 1 with
      | none =>
          rw [hf, hi] at h
          have h2 : Except.error (PyError.indexError 1) = Except.ok b1 := h
          simp at h2
      | some t1 =>
          rw [hf, hi] at h
          have h2 : Except.ok
              { b with
                shear_torque := modeA_loop b.semi_sheared_area b.length_side_pf
                  b.force b.inter_fiber_angle b.shear_angle
                  ((List.replicate b.number_mesures (0 : ℝ)).set 1
                    (4 * b.length_side_pf * F1 * Real.sin (t1 / 2)
                      / (4 * b.sheared_area - b.semi_sheared_area))) 2
                  (b.number_mesures - 2)
                shear_torque_computed := true } = Except.ok b1 := h
          injection h2 with h3
          rw [← h3]
          refine ⟨rfl, rfl, rfl, rfl, rfl, rfl, rfl, rfl, rfl, rfl, rfl, rfl,
            rfl, rfl, rfl, rfl, rfl, ?_⟩
          show (modeA_loop b.semi_sheared_area b.length_side_pf
            b.force b.inter_fiber_angle b.shear_angle _ 2
            (b.number_mesures - 2)).length = b.number_mesures
          rw [modeA_loop_length, List.length_set, List.length_replicate]

/-- C10 witness: the frame property applied to a successful run on
`witB10`. -/
theorem C10_frame_property_witness :
    ∃ b1, witB10.calculate_shear_torque = Except.ok b1 ∧
      b1.shear_angle = witB10.shear_angle ∧
      b1.shear_torque_computed = true ∧
      b1.shear_torque.length = witB10.number_mesures := by
  have h := calculate_shear_torque_ok witB10 (by simp [witB10, baseB])
    (by simp [witB10, baseB])
  obtain ⟨-, -, -, -, -, -, -, -, -, -, -, -, -, h14, -, -, h17, h18⟩ :=
    C10_frame_property witB10 _ h
  exact ⟨_, h, h14, h17, h18⟩

/-! ### Claim C8 — Mode B closed form -/

/-- C8 (confirmed): Mode B overwrites the torque series with the vectorised
closed form `((H/W - 1) * F[i] * (cos(theta_s[i]/2) - sin(theta_s[i]/2))) /
(2H - 3W)`; each output index depends only on `force[i]` and
`shear_angle[i]` (no recursion, no cross-index dependency). -/
theorem C8_mode_b_closed_form (b : BiasTest) (hW : b.width ≠ 0) :
    (b.calculate_shear_torque_2).shear_torque
      = modeB_series b.length b.width b.force b.shear_angle ∧
    (b.calculate_shear_torque_2).shear_torque_computed = true ∧
    (∀ i, i < b.force.length → i < b.shear_angle.length →
      (b.calculate_shear_torque_2).shear_torque.get? i
        = some ((b.length / b.width - 1) * b.force.getD i 0
            * (Real.cos (b.shear_angle.getD i 0 / 2)
              - Real.sin (b.shear_angle.getD i 0 / 2))
            / (2 * b.length - 3 * b.width))) ∧
    (∀ (f2 s2 : List ℝ) (i : ℕ), i < f2.length → i < s2.length →
      f2.getD i 0 = b.force.getD i 0 → s2.getD i 0 = b.shear_angle.getD i 0 →
      (modeB_series b.length b.width f2 s2).get? i
        = some ((b.length / b.width - 1) * b.force.getD i 0
            * (Real.cos (b.shear_angle.getD i 0 / 2)
              - Real.sin (b.shear_angle.getD i 0 / 2))
            / (2 * b.length - 3 * b.width))) := by
  refine ⟨rfl, rfl, ?_, ?_⟩
  · intro i h1 h2
    show (modeB_series b.length b.width b.force b.shear_angle).get? i = _
    unfold modeB_series
    rw [get?_zipWith_of_lt _ 0 0 _ _ i h1 h2]
  · intro f2 s2 i h1 h2 hfe hse
    unfold modeB_series
    rw [get?_zipWith_of_lt _ 0 0 _ _ i h1 h2, hfe, hse]

/-- C8 witness: the Mode B formula at index 0 of `witB8`. -/
theorem C8_mode_b_closed_form_witness :
    (witB8.calculate_shear_torque_2).shear_torque.get? 0
      = some ((witB8.length / witB8.width - 1) * witB8.force.getD 0 0
          * (Real.cos (witB8.shear_angle.getD 0 0 / 2)
            - Real.sin (witB8.shear_angle.getD 0 0 / 2))
          / (2 * witB8.length - 3 * witB8.width)) :=
  (C8_mode_b_closed_form witB8 (by norm_num [witB8, baseB])).2.2.1 0
    (by simp [witB8, baseB]) (by simp [witB8, baseB])

/-! ### Claim C1 — Mode A recurrence step -/

/-- C1 (amended): for `2 ≤ i < N`, Mode A computes
`c[i] = (1/a) * (L * F[i] * sin(theta_f[i]/2) - 0.5 * a * semi_torque)`
where `semi_torque` interpolates at `theta_s[i]/2` over the FULL
`shear_angle` array paired with the CURRENT accumulator state (entries
`0..i-1` already computed, entries `i..N-1` still zero) — not over just the
previously accumulated prefix pairs as the claim states. -/
theorem C1_mode_a_recurrence_amended (b : BiasTest) (i : ℕ)
    (hN : 2 ≤ b.number_mesures)
    (hf : b.force.length = b.number_mesures)
    (hifa : b.inter_fiber_angle.length = b.number_mesures)
    (h2i : 2 ≤ i) (hiN : i < b.number_mesures) :
    ∃ b1, b.calculate_shear_torque = Except.ok b1 ∧
      b1.shear_torque.get? i = some
        (1 / b.semi_sheared_area
          * (b.length_side_pf * b.force.getD i 0
              * Real.sin (b.inter_fiber_angle.getD i 0 / 2)
            - 0.5 * b.semi_sheared_area
              * npInterp (b.shear_angle.getD i 0 / 2) b.shear_angle
                  (modeA_loop b.semi_sheared_area b.length_side_pf b.force
                    b.inter_fiber_angle b.shear_angle (modeA_c0 b) 2
                    (i - 2)))) := by
  refine ⟨_, calculate_shear_torque_ok b (by omega) (by omega), ?_⟩
  show (modeA_loop b.semi_sheared_area b.length_side_pf b.force
      b.inter_fiber_angle b.shear_angle (modeA_c0 b) 2
      (b.number_mesures - 2)).get? i = _
  have hsplit : b.number_mesures - 2 = (i - 2) + (b.number_mesures - i) := by
    omega
  rw [hsplit, modeA_loop_add]
  have h2i2 : 2 + (i - 2) = i := by omega
  rw [h2i2]
  have hNi : b.number_mesures - i = (b.number_mesures - i - 1) + 1 := by omega
  rw [hNi, modeA_loop_succ,
    modeA_loop_get_lt _ _ _ _ _ _ _ (i + 1) i (by omega)]
  have hlen : i < (modeA_loop b.semi_sheared_area b.length_side_pf b.force
      b.inter_fiber_angle b.shear_angle (modeA_c0 b) 2 (i - 2)).length := by
    rw [modeA_loop_length]
    unfold modeA_c0
    rw [List.length_set, List.length_replicate]
    omega
  simp only [modeA_step]
  rw [List.get?_set_eq_of_lt _ hlen]

/-- C1 counterexample: on `cexB1` the code computes `c[2] = -3/5`
(interpolating over the full angle array with the current accumulator
`[0, 2, 0]`), while the claimed formula — interpolation over exactly the
previously accumulated pairs `theta_s[0..1] = [0, 1]`, `c[0..1] = [0, 2]`
with flat extrapolation — gives `c[2] = -1`.  Hence the claim's equation
fails at this input. -/
theorem C1_mode_a_recurrence_counterexample :
    (cexB1.calculate_shear_torque).toOption.map
        (fun b1 => b1.shear_torque.get? 2) = some (some (-(3/5))) ∧
    (1:ℝ) / 2 * (1 * 0 * Real.sin (Real.pi / 2)
        - 0.5 * 2 * npInterp ((6:ℝ) / 2) [0, 1] [0, 2]) = -1 ∧
    (-(3/5) : ℝ) ≠ -1 := by
  refine ⟨?_, ?_, by norm_num⟩
  · have hok := calculate_shear_torque_ok cexB1 (by simp [cexB1, baseB])
      (by simp [cexB1, baseB])
    rw [hok]
    simp only [Except.toOption, Option.map_some']
    have hval : (4:ℝ) * 1 * 3 * Real.sin (Real.pi / 2) / (4 * 2 - 2) = 2 := by
      rw [Real.sin_pi_div_two]
      norm_num
    have hc0 : modeA_c0 cexB1 = [0, 2, 0] := by
      show (List.replicate 3 (0:ℝ)).set 1
          (4 * 1 * 3 * Real.sin (Real.pi / 2) / (4 * 2 - 2)) = [0, 2, 0]
      rw [hval]
      rfl
    have hinterp : npInterp ((6:ℝ) / 2) [0, 1, 6] [0, 2, 0] = 6 / 5 := by
      norm_num [npInterp]
    have hstep : modeA_step 2 1 [0, (3:ℝ), 0] [0, Real.pi, Real.pi]
        [0, 1, 6] [0, 2, 0] 2 = [0, 2, -(3/5)] := by
      simp only [modeA_step, List.getD_cons_succ, List.getD_cons_zero]
      rw [hinterp, Real.sin_pi_div_two]
      have hv2 : (1:ℝ) / 2 * (1 * 0 * 1 - 0.5 * 2 * (6 / 5)) = -(3/5) := by
        norm_num
      rw [hv2]
      rfl
    show some ((modeA_loop 2 1 [0, (3:ℝ), 0] [0, Real.pi, Real.pi] [0, 1, 6]
        (modeA_c0 cexB1) 2 1).get? 2) = some (some (-(3/5)))
    rw [hc0, modeA_loop_succ, hstep, modeA_loop_zero]
    rfl
  · have hpfx : npInterp ((6:ℝ) / 2) [0, 1] [0, 2] = 2 := by
      norm_num [npInterp]
    rw [hpfx, Real.sin_pi_div_two]
    norm_num

/-- C1 witness: the amended recurrence theorem applied to `cexB1` at
index 2. -/
theorem C1_mode_a_recurrence_witness :
    ∃ b1, cexB1.calculate_shear_torque = Except.ok b1 ∧
      b1.shear_torque.get? 2 = some
        (1 / cexB1.semi_sheared_area
          * (cexB1.length_side_pf * cexB1.force.getD 2 0
              * Real.sin (cexB1.inter_fiber_angle.getD 2 0 / 2)
            - 0.5 * cexB1.semi_sheared_area
              * npInterp (cexB1.shear_angle.getD 2 0 / 2) cexB1.shear_angle
                  (modeA_loop cexB1.semi_sheared_area cexB1.length_side_pf
                    cexB1.force cexB1.inter_fiber_angle cexB1.shear_angle
                    (modeA_c0 cexB1) 2 (2 - 2)))) :=
  C1_mode_a_recurrence_amended cexB1 2 (by norm_num [cexB1, baseB])
    (by simp [cexB1, baseB]) (by simp [cexB1, baseB]) (by norm_num)
    (by norm_num [cexB1, baseB])
